import Mathlib

/-!
Verification of the netsimulate scenario-driven connection behavior
simulator against its natural-language specification.

The Go sources are shallowly embedded: durations (Go `time.Duration`,
an int64 count of nanoseconds) become `Nat` nanosecond counts; the
process-wide connection counter (`var connectionCount int32`, mutated
by `atomic.AddInt32`) becomes an explicit `Int` threaded through
`handleConnection`, wrapped into the int32 range by `wrap32` on every
increment, with the parity guard using Go's truncation-based `%`
(`Int.tmod`, which yields a nonpositive remainder for a wrapped
negative dividend); side-effecting functions become pure functions
returning traces of observable events (sleeps, writes, closes, log
lines, exit codes).
-/

namespace Netsim

/-- Nanoseconds in one second, mirroring Go `time.Second`. -/
def timeSecond : Nat := 1000000000

/-- Nanoseconds in one millisecond, mirroring Go `time.Millisecond`. -/
def timeMillisecond : Nat := 1000000

/-- Server simulation type, from the `ServerType` enum in the source. -/
inductive ServerType
  | ServerTypeHTTP
  | ServerTypeRST
  | ServerTypeMultiResponse
deriving DecidableEq, Repr

/-- Simulation configuration, from `type Config struct` in the config
portion of client.go.  Field defaults are the Go zero values, so catalog
entries below list exactly the fields the Go composite literals set. -/
structure Config where
  ID : String := ""
  Description : String := ""
  KeyLogFilePath : String := ""
  ServerAddress : String := ""
  UseHTTP2 : Bool := false
  UseTLS : Bool := false
  ServerType : ServerType := ServerType.ServerTypeHTTP
  ServerIdleTimeout : Nat := 0
  ServerSleepBeforeResponse : Nat := 0
  ServerSleepOnSecond : Bool := false
  ServerSleepOnSecondDuration : Nat := 0
  ServerSuccessResponseOnFirst : Bool := false
  ServerMultiCloseConAfter : Nat := 0
  ClientRequestMethod : String := ""
  ClientRequestURL : String := ""
  ClientWaitBeforeNextReq : Nat := 0
  ReqInParallel : Bool := false
  ClientIdleTimeout : Nat := 0
  ClientMaxConnsPerHost : Nat := 0
  ClientTimeout : Nat := 0
  ReqCount : Nat := 0
deriving DecidableEq, Repr

/-- List of simulation configurations, mirroring `type Simulations []Config`. -/
abbrev Simulations := List Config

/-- The static scenario catalog `var simulations = Simulations{...}` from
the config portion of client.go (entries 01-10 and 20). -/
def simulations : Simulations := [
  { ID := "01"
    Description := "Server HTTP 200 OK response - connection reused from idle pool"
    ServerType := ServerType.ServerTypeHTTP
    ServerIdleTimeout := 5 * timeSecond
    ServerSleepBeforeResponse := 0
    ServerSleepOnSecond := false
    ClientRequestMethod := "GET"
    ClientIdleTimeout := 90 * timeSecond
    ClientWaitBeforeNextReq := 1 * timeSecond
    ClientTimeout := 10 * timeSecond
    ReqCount := 3 },
  { ID := "02"
    Description := "Server HTTP 200 OK response - connection not reused from idle pool - over server idle timeout"
    ServerType := ServerType.ServerTypeHTTP
    ServerIdleTimeout := 1 * timeSecond
    ServerSleepBeforeResponse := 0
    ServerSleepOnSecond := false
    ClientRequestMethod := "GET"
    ClientIdleTimeout := 90 * timeSecond
    ClientWaitBeforeNextReq := 1100 * timeMillisecond
    ClientTimeout := 10 * timeSecond
    ReqCount := 3 },
  { ID := "03"
    Description := "Server HTTP 200 OK response - connection not reused from idle pool - over client idle timeout"
    ServerType := ServerType.ServerTypeHTTP
    ServerIdleTimeout := 5 * timeSecond
    ServerSleepBeforeResponse := 0
    ServerSleepOnSecond := false
    ClientRequestMethod := "GET"
    ClientIdleTimeout := 1 * timeSecond
    ClientWaitBeforeNextReq := 2 * timeSecond
    ClientTimeout := 10 * timeSecond
    ReqCount := 3 },
  { ID := "04"
    Description := "Server HTTP 200 OK response - slow response - client timeout - connection not put to idle pool"
    ServerType := ServerType.ServerTypeHTTP
    ServerIdleTimeout := 5 * timeSecond
    ServerSleepBeforeResponse := 1100 * timeMillisecond
    ServerSleepOnSecond := false
    ClientRequestMethod := "GET"
    ClientIdleTimeout := 90 * timeSecond
    ClientWaitBeforeNextReq := 1 * timeSecond
    ClientTimeout := 1 * timeSecond
    ReqCount := 3 },
  { ID := "05"
    Description := "Server HTTP 200 OK response - slow response on second request - connection not put to idle pool"
    ServerType := ServerType.ServerTypeHTTP
    ServerIdleTimeout := 5 * timeSecond
    ServerSleepBeforeResponse := 0 * timeSecond
    ServerSleepOnSecond := true
    ServerSleepOnSecondDuration := 1100 * timeMillisecond
    ClientRequestMethod := "GET"
    ClientIdleTimeout := 90 * timeSecond
    ClientWaitBeforeNextReq := 1 * timeSecond
    ClientTimeout := 1 * timeSecond
    ReqCount := 3 },
  { ID := "06"
    Description := "Server HTTP OK response for first request, but RST to a second one - retry by Round Tripper for GET"
    ServerType := ServerType.ServerTypeMultiResponse
    ServerMultiCloseConAfter := 2100 * timeMillisecond
    ServerIdleTimeout := 5 * timeSecond
    ServerSuccessResponseOnFirst := false
    ServerSleepBeforeResponse := 0
    ServerSleepOnSecond := false
    ClientRequestMethod := "GET"
    ClientIdleTimeout := 90 * timeSecond
    ClientWaitBeforeNextReq := 2 * timeSecond
    ClientTimeout := 10 * timeSecond
    ReqCount := 3 },
  { ID := "07"
    Description := "Server HTTP OK response for first request, but RST to a second one - no retry by Round Tripper for POST"
    ServerType := ServerType.ServerTypeMultiResponse
    ServerMultiCloseConAfter := 2100 * timeMillisecond
    ServerIdleTimeout := 5 * timeSecond
    ServerSuccessResponseOnFirst := false
    ServerSleepBeforeResponse := 0
    ServerSleepOnSecond := false
    ClientRequestMethod := "POST"
    ClientIdleTimeout := 90 * timeSecond
    ClientWaitBeforeNextReq := 2 * timeSecond
    ClientTimeout := 10 * timeSecond
    ReqCount := 3 },
  { ID := "08"
    Description := "Server HTTP OK response for first request, then closes the conn with RST before the second is closed - client detects closed connection when trying to use it and opens a new one"
    ServerType := ServerType.ServerTypeMultiResponse
    ServerMultiCloseConAfter := 1000 * timeMillisecond
    ServerIdleTimeout := 5 * timeSecond
    ServerSuccessResponseOnFirst := false
    ServerSleepBeforeResponse := 0
    ServerSleepOnSecond := false
    ClientRequestMethod := "GET"
    ClientIdleTimeout := 90 * timeSecond
    ClientWaitBeforeNextReq := 2 * timeSecond
    ClientTimeout := 10 * timeSecond
    ReqCount := 3 },
  { ID := "09"
    Description := "Multiple requests in parallel - multiple TCP connections"
    ServerType := ServerType.ServerTypeHTTP
    ServerIdleTimeout := 5 * timeSecond
    ServerSuccessResponseOnFirst := false
    ServerSleepBeforeResponse := 10 * timeMillisecond
    ServerSleepOnSecond := false
    ClientRequestMethod := "GET"
    ClientIdleTimeout := 90 * timeSecond
    ClientWaitBeforeNextReq := 0
    ReqInParallel := true
    ClientTimeout := 10 * timeSecond
    ReqCount := 3 },
  { ID := "10"
    Description := "Multiple requests in parallel with client config MaxConnsPerHost=1 - one TCP connection is used"
    ServerType := ServerType.ServerTypeHTTP
    ServerSuccessResponseOnFirst := false
    ServerSleepBeforeResponse := 10 * timeMillisecond
    ServerSleepOnSecond := false
    ServerIdleTimeout := 5 * timeSecond
    ClientRequestMethod := "GET"
    ClientIdleTimeout := 90 * timeSecond
    ClientMaxConnsPerHost := 1
    ClientWaitBeforeNextReq := 0
    ReqInParallel := true
    ClientTimeout := 10 * timeSecond
    ReqCount := 3 },
  { ID := "20"
    Description := "HTTP2, Server HTTP 200 OK response - connection reused from idle pool"
    UseHTTP2 := true
    UseTLS := true
    ServerType := ServerType.ServerTypeHTTP
    ServerIdleTimeout := 5 * timeSecond
    ClientRequestMethod := "GET"
    ClientIdleTimeout := 90 * timeSecond
    ClientWaitBeforeNextReq := 1 * timeSecond
    ReqInParallel := false
    ClientTimeout := 10 * timeSecond
    ReqCount := 3 }
]

/-- Catalog lookup `func (s Simulations) get(id string) (c *Config, found bool)`:
linear scan returning the first entry whose ID matches; the Go
`for _, cfg := range s` loop variable is a copy of the element, so the
returned pointer never aliases the catalog's backing array.  `none`
encodes found=false. -/
def Simulations.get : Simulations → String → Option Config
  | [], _ => none
  | cfg :: rest, id => if cfg.ID = id then some cfg else Simulations.get rest id

/-- Helper: a scan over entries none of which carry the requested ID finds
nothing. -/
theorem Simulations.get_eq_none (s : Simulations) (id : String)
    (h : ∀ cfg ∈ s, cfg.ID ≠ id) : Simulations.get s id = none := by
  induction s with
  | nil => rfl
  | cons cfg rest ih =>
    have hne : cfg.ID ≠ id := h cfg (List.mem_cons_self cfg rest)
    simp only [Simulations.get, if_neg hne]
    exact ih (fun c hc => h c (List.mem_cons_of_mem cfg hc))

/-- Observable events of the client request driver `startClient`. -/
inductive Event
  | request (num : Nat)
  | dispatch (num : Nat)
  | sleepSec (sec : Nat)
  | waitAll
deriving DecidableEq, Repr

/-- Truncation performed at the call site
`wait(int(cfg.ClientWaitBeforeNextReq.Seconds()))`: Go
`Duration.Seconds()` converted with `int(...)` truncates toward zero,
which for the nonnegative nanosecond counts in play is division by 10^9. -/
def truncSec (ns : Nat) : Nat := ns / timeSecond

/-- The driver helper `func wait(sec int)`: returns immediately when
`sec == 0`, otherwise sleeps one second `sec` times. -/
def wait (sec : Nat) : List Event :=
  if sec = 0 then [] else List.replicate sec (Event.sleepSec 1)

/-- One pass of the `for i := 1; i <= cfg.ReqCount; i++` loop body of
`startClient`, with explicit fuel equal to the remaining iterations: in
parallel mode the request is dispatched to a fresh task, otherwise it is
performed inline; after every iteration but the last the driver calls
`wait(int(cfg.ClientWaitBeforeNextReq.Seconds()))`. -/
def clientLoop (cfg : Config) : Nat → Nat → List Event
  | 0, _ => []
  | fuel + 1, i =>
    (if cfg.ReqInParallel then [Event.dispatch i] else [Event.request i]) ++
    (if i < cfg.ReqCount then wait (truncSec cfg.ClientWaitBeforeNextReq) else []) ++
    clientLoop cfg fuel (i + 1)

/-- The request driver `func startClient(cfg *Config)`: runs the request
loop for `ReqCount` iterations starting at 1, then blocks on
`wg.Wait()` until all requests have completed. -/
def startClient (cfg : Config) : List Event :=
  clientLoop cfg cfg.ReqCount 1 ++ [Event.waitAll]

/-- Nanoseconds slept by one event. -/
def sleepNsOf : Event → Nat
  | Event.sleepSec s => s * timeSecond
  | _ => 0

/-- Total nanoseconds slept along a driver trace. -/
def totalSleepNs : List Event → Nat
  | [] => 0
  | e :: rest => sleepNsOf e + totalSleepNs rest

/-- Whether an event is a sleep. -/
def isSleepEvent : Event → Bool
  | Event.sleepSec _ => true
  | _ => false

/-- Spec-side description of the sequential execution policy: the
requests in the given numbering are issued one after the other, a sleep
of the given whole number of seconds separating consecutive requests
(and no sleep after the last); a zero delay produces no sleep events. -/
def specSeq (sleepSec : Nat) : List Nat → List Event
  | [] => []
  | [i] => [Event.request i]
  | i :: j :: rest =>
    Event.request i :: ((if sleepSec = 0 then [] else List.replicate sleepSec (Event.sleepSec 1)) ++
      specSeq sleepSec (j :: rest))

/-- Spec-side sequential driver trace: requests 1..n issued sequentially
with the given inter-request sleep, then the final wait for completion. -/
def specSequentialTrace (n sleepSec : Nat) : List Event :=
  specSeq sleepSec (List.range' 1 n) ++ [Event.waitAll]

/-- Spec-side parallel driver trace: all n requests dispatched
concurrently with no inter-request delay, then the driver waits for all
of them to complete. -/
def specParallelTrace (n : Nat) : List Event :=
  (List.range' 1 n).map Event.dispatch ++ [Event.waitAll]

/-- Helper: sleeping along an appended trace adds up. -/
theorem totalSleepNs_append (a b : List Event) :
    totalSleepNs (a ++ b) = totalSleepNs a + totalSleepNs b := by
  induction a with
  | nil => simp [totalSleepNs]
  | cons e rest ih => simp [totalSleepNs, ih]; omega

/-- Helper: total sleep of `sec` one-second sleeps. -/
theorem totalSleepNs_replicate (n : Nat) :
    totalSleepNs (List.replicate n (Event.sleepSec 1)) = n * timeSecond := by
  induction n with
  | zero => rfl
  | succ k ih =>
    simp [List.replicate, totalSleepNs, sleepNsOf, ih]
    ring

/-- Helper: the `wait` helper sleeps exactly its argument in seconds. -/
theorem totalSleepNs_wait (sec : Nat) :
    totalSleepNs (wait sec) = sec * timeSecond := by
  by_cases h : sec = 0
  · simp [wait, h, totalSleepNs]
  · simp [wait, h, totalSleepNs_replicate]

/-- Helper: over the iterations i, i+1, ..., i+fuel-1 with
i + fuel = ReqCount + 1, the loop sleeps after every iteration except
the last, each time the truncated configured delay. -/
theorem clientLoop_totalSleep (cfg : Config) (fuel i : Nat)
    (h : i + fuel = cfg.ReqCount + 1) :
    totalSleepNs (clientLoop cfg fuel i)
      = (fuel - 1) * (truncSec cfg.ClientWaitBeforeNextReq * timeSecond) := by
  induction fuel generalizing i with
  | zero => simp [clientLoop, totalSleepNs]
  | succ k ih =>
    have hstep : clientLoop cfg (k + 1) i =
        (if cfg.ReqInParallel then [Event.dispatch i] else [Event.request i]) ++
        ((if i < cfg.ReqCount then wait (truncSec cfg.ClientWaitBeforeNextReq) else []) ++
          clientLoop cfg k (i + 1)) := by
      simp only [clientLoop, List.append_assoc]
    have hreq : totalSleepNs
        (if cfg.ReqInParallel then [Event.dispatch i] else [Event.request i]) = 0 := by
      by_cases hp : cfg.ReqInParallel <;> simp [hp, totalSleepNs, sleepNsOf]
    rw [hstep, totalSleepNs_append, totalSleepNs_append, hreq]
    cases k with
    | zero =>
      have hi : ¬ i < cfg.ReqCount := by omega
      simp [hi, clientLoop, totalSleepNs]
    | succ k' =>
      have hi : i < cfg.ReqCount := by omega
      rw [if_pos hi, totalSleepNs_wait, ih (i + 1) (by omega)]
      simp only [Nat.add_sub_cancel, Nat.zero_add]
      ring

/-- Helper: when the truncated delay is zero the loop emits no sleep
events at all (the `wait` helper returns immediately on 0). -/
theorem clientLoop_no_sleep (cfg : Config) (fuel i : Nat)
    (h : truncSec cfg.ClientWaitBeforeNextReq = 0) :
    ∀ e ∈ clientLoop cfg fuel i, isSleepEvent e = false := by
  induction fuel generalizing i with
  | zero => intro e he; simp [clientLoop] at he
  | succ k ih =>
    intro e he
    simp only [clientLoop, wait, h, if_pos rfl, List.mem_append] at he
    rcases he with (he | he) | he
    · by_cases hp : cfg.ReqInParallel <;> simp [hp] at he <;> simp [he, isSleepEvent]
    · split at he <;> simp at he
    · exact ih (i + 1) e he

/-- Observable events of a raw-TCP per-connection behavior function. -/
inductive SrvEvent
  | sleepNs (ns : Nat)
  | write (resp : String)
  | closeNormal
deriving DecidableEq, Repr

/-- The literal HTTP response written by `sendHTTPResponse` and
`sendMulti` in the source. -/
def okResponse : String :=
  "HTTP/1.1 200 OK\r\nContent-Length: 2\r\nContent-Type: text/plain\r\n\r\nOK"

/-- The per-connection action `handleConnection` dispatches to. -/
inductive ConnAction
  | normalHTTP
  | multi
  | rst
  | panicUnknown
deriving DecidableEq, Repr

/-- Two's-complement wrap of an integer into the int32 range
[-2^31, 2^31), the arithmetic performed by Go's `atomic.AddInt32`. -/
def wrap32 (n : Int) : Int := (n + 2147483648) % 4294967296 - 2147483648

/-- Per-connection dispatch `func handleConnection(conn net.Conn, cfg *Config)`:
atomically increments the shared int32 connection counter (modelled as
the explicit `count` argument holding the stored value, with the
wrapped post-increment value returned); if
`ServerSuccessResponseOnFirst` is set and `currentConnection % 2 == 1`
under Go's truncated `%` (`Int.tmod`) it sends the normal HTTP 200
response, otherwise it dispatches on `ServerType`, panicking on any
type other than the two raw-TCP ones. -/
def handleConnection (cfg : Config) (count : Int) : Int × ConnAction :=
  let currentConnection := wrap32 (count + 1)
  if cfg.ServerSuccessResponseOnFirst ∧ currentConnection.tmod 2 = 1 then
    (currentConnection, ConnAction.normalHTTP)
  else
    match cfg.ServerType with
    | ServerType.ServerTypeMultiResponse => (currentConnection, ConnAction.multi)
    | ServerType.ServerTypeRST => (currentConnection, ConnAction.rst)
    | ServerType.ServerTypeHTTP => (currentConnection, ConnAction.panicUnknown)

/-- Runs `handleConnection` on n successive accepted connections,
starting from the given stored counter value, collecting the chosen
actions. -/
def runConnections (cfg : Config) : Nat → Int → List ConnAction
  | 0, _ => []
  | n + 1, count =>
    let r := handleConnection cfg count
    r.2 :: runConnections cfg n r.1

/-- Normal-response path `func sendHTTPResponse(conn net.Conn, cfg *Config)`:
optionally sleeps `ServerSleepBeforeResponse`, sleeps a fixed 100ms to
let the peer's request arrive, writes the literal HTTP 200 response
(`writeOk` selects the error-free branch of `conn.Write`), and the
deferred `conn.Close()` closes the connection normally in every branch. -/
def sendHTTPResponse (writeOk : Bool) (cfg : Config) : List SrvEvent :=
  (if cfg.ServerSleepBeforeResponse ≠ 0 then [SrvEvent.sleepNs cfg.ServerSleepBeforeResponse] else [])
  ++ [SrvEvent.sleepNs (100 * timeMillisecond)]
  ++ (if writeOk then [SrvEvent.write okResponse, SrvEvent.closeNormal] else [SrvEvent.closeNormal])

/-- Multi-response path `func sendMulti(conn net.Conn, cfg *Config)`:
sleeps a fixed 100ms settle time, writes the literal HTTP 200 response,
then (when the write succeeded) sleeps `ServerMultiCloseConAfter`
before the deferred normal close; a failed write returns early, so only
the deferred close happens. -/
def sendMulti (writeOk : Bool) (cfg : Config) : List SrvEvent :=
  [SrvEvent.sleepNs (100 * timeMillisecond)]
  ++ (if writeOk then
        [SrvEvent.write okResponse, SrvEvent.sleepNs cfg.ServerMultiCloseConAfter,
          SrvEvent.closeNormal]
      else [SrvEvent.closeNormal])

/-- Number of response writes along a server trace. -/
def countWrites : List SrvEvent → Nat
  | [] => 0
  | SrvEvent.write _ :: rest => countWrites rest + 1
  | _ :: rest => countWrites rest

/-- Nanoseconds slept by one server event. -/
def srvSleepNs : SrvEvent → Nat
  | SrvEvent.sleepNs n => n
  | _ => 0

/-- Nanoseconds elapsed (slept) before the k-th event of a server trace. -/
def elapsedBefore (tr : List SrvEvent) (k : Nat) : Nat :=
  ((tr.take k).map srvSleepNs).sum

/-- Outcome of the reset path `func sendRST(conn net.Conn, cfg *Config)`.
`lingerZeroSet` records whether SO_LINGER with a zero linger interval
was successfully enabled before the close, `httpBytesWritten` the
response bytes written on the connection (none, in every branch), and
`logs` the messages printed. -/
structure RstResult where
  lingerZeroSet : Bool
  closedConn : Bool
  httpBytesWritten : List String
  logs : List String
  panicked : Bool
deriving DecidableEq, Repr

/-- The reset path: a non-TCP connection, a failure of `tcpConn.File()`,
or a failure of `syscall.SetsockoptLinger` each log a message and
return, leaving only the deferred ordinary `conn.Close()`; on success
the zero-linger option is enabled so the deferred close emits a reset.
No branch writes HTTP bytes and no branch panics. -/
def sendRST (isTCP fileErr sockoptErr : Bool) : RstResult :=
  if !isTCP then
    { lingerZeroSet := false, closedConn := true, httpBytesWritten := [],
      logs := ["server: Not a TCP connection, closing normally"], panicked := false }
  else if fileErr then
    { lingerZeroSet := false, closedConn := true, httpBytesWritten := [],
      logs := ["server: Error getting file descriptor:"], panicked := false }
  else if sockoptErr then
    { lingerZeroSet := false, closedConn := true, httpBytesWritten := [],
      logs := ["server: Error setting SO_LINGER:"], panicked := false }
  else
    { lingerZeroSet := true, closedConn := true, httpBytesWritten := [],
      logs := ["server: Abruptly closed connection with RST to"], panicked := false }

/-- An HTTP request as seen by the NORMAL_HTTP handler: its method, the
`req` query parameter, the request body, and whether reading the body
fails (the `io.ReadAll` error branch). -/
structure HttpRequest where
  method : String
  reqParam : String
  body : String
  bodyReadErr : Bool
deriving DecidableEq, Repr

/-- Result of one invocation of the NORMAL_HTTP handler: the sleeps it
performs in order, then the response status and body. -/
structure HandlerResult where
  sleepsNs : List Nat
  status : Nat
  respBody : String
deriving DecidableEq, Repr

/-- The NORMAL_HTTP handler `func newHandler(cfg *Config) http.HandlerFunc`:
reads the `req` query parameter, sleeps `ServerSleepOnSecondDuration`
when that mode is enabled and the parameter equals "2", then sleeps
`ServerSleepBeforeResponse` when nonzero, then answers by method (the
Go `switch r.Method`): GET echoes the query number, POST echoes the
received body (`http.Error` with 500 if reading it failed), anything
else gets `http.Error` with 405. -/
def newHandler (cfg : Config) (r : HttpRequest) : HandlerResult :=
  let sleeps :=
    (if cfg.ServerSleepOnSecond ∧ r.reqParam = "2"
      then [cfg.ServerSleepOnSecondDuration] else [])
    ++ (if cfg.ServerSleepBeforeResponse ≠ 0 then [cfg.ServerSleepBeforeResponse] else [])
  if r.method = "GET" then
    { sleepsNs := sleeps, status := 200,
      respBody := "GET request handled with query number: " ++ r.reqParam }
  else if r.method = "POST" then
    if r.bodyReadErr then
      { sleepsNs := sleeps, status := 500, respBody := "Error reading request body\n" }
    else
      { sleepsNs := sleeps, status := 200,
        respBody := "POST request handled, Data received: " ++ r.body ++ "\n" }
  else
    { sleepsNs := sleeps, status := 405, respBody := "Unsupported request method\n" }

/-- Outcome of a server-start or orchestration function: the exit code
passed to `os.Exit`, if any (`none` means the function returns without
exiting, so the process terminates with status 0), and the messages
printed. -/
structure StartOutcome where
  exit : Option Nat
  logs : List String
deriving DecidableEq, Repr

/-- HTTP-server startup `func startHTTPServer(cfg *Config)`: prints the
starting banner, then calls ListenAndServe (`bindErr` carries its error,
if any); a non-nil error is only printed - the function returns without
calling `os.Exit`. -/
def startHTTPServer (cfg : Config) (bindErr : Option String) : StartOutcome :=
  match bindErr with
  | some e =>
    { exit := none,
      logs := ["Starting server on " ++ cfg.ServerAddress, "Error starting server: " ++ e] }
  | none => { exit := none, logs := ["Starting server on " ++ cfg.ServerAddress] }

/-- Raw-TCP server startup `func startTPCServer(cfg *Config)`: a failure
of `net.Listen` prints a diagnostic and calls `os.Exit(1)`; otherwise
the accept loop starts. -/
def startTPCServer (cfg : Config) (bindErr : Option String) : StartOutcome :=
  match bindErr with
  | some e => { exit := some 1, logs := ["Error starting bad server: " ++ e] }
  | none => { exit := none, logs := ["Starting Bad Server on " ++ cfg.ServerAddress] }

/-- Termination of `func runSimulation(cfg *Config)`: whether the select
fires on the interrupt channel or on the done channel, the function
prints its message, prints "Simulation stopped.", and returns to `main`,
which itself returns - no `os.Exit` call, so the process exit status
is 0 on both paths. -/
def runSimulationOutcome (interrupted : Bool) : StartOutcome :=
  { exit := none,
    logs := [if interrupted then "program: shutdown signal received. Exiting..."
        else "program: all tasks completed successfully. Exiting...",
      "Simulation stopped."] }

/-- Configuration loading `func loadConfiguration(argsCfg *Config) *Config`
from main.go, threaded with the catalog it reads: an unknown ID or a TLS
request for a non-HTTP scenario calls `os.Exit(1)` (modelled as
`Except.error 1`); otherwise the scenario copy returned by
`simulations.get` is updated (method override, TLS flag, HTTP2 forcing
TLS, key-log path, server address and request URL) and returned.  The
catalog component of the result is the catalog after the call: since the
Go `get` returns a pointer to a range-loop copy, none of these writes
reach the catalog's backing array, which is returned unchanged. -/
def loadConfigurationSt (argsCfg : Config) (cat : Simulations) :
    Except Nat Config × Simulations :=
  match Simulations.get cat argsCfg.ID with
  | none => (Except.error 1, cat)
  | some cfg0 =>
    if cfg0.ServerType ≠ ServerType.ServerTypeHTTP ∧ argsCfg.UseTLS then
      (Except.error 1, cat)
    else
      let cfg1 := if argsCfg.ClientRequestMethod ≠ "" then
          { cfg0 with ClientRequestMethod := argsCfg.ClientRequestMethod } else cfg0
      let cfg2 := { cfg1 with UseTLS := argsCfg.UseTLS }
      let cfg3 := if cfg2.UseHTTP2 then { cfg2 with UseTLS := true } else cfg2
      let cfg4 := { cfg3 with KeyLogFilePath := argsCfg.KeyLogFilePath }
      let cfg5 := if cfg4.UseTLS then
          { cfg4 with
            ServerAddress := "127.0.0.1:8443"
            ClientRequestURL := "https://127.0.0.1:8443" }
        else
          { cfg4 with
            ServerAddress := "127.0.0.1:8080"
            ClientRequestURL := "http://127.0.0.1:8080" }
      (Except.ok cfg5, cat)

/-- Configuration loading against the program's static catalog. -/
def loadConfiguration (argsCfg : Config) : Except Nat Config :=
  (loadConfigurationSt argsCfg simulations).1

def args01 : Config := { ID := "01", ClientRequestMethod := "POST" }

set_option maxRecDepth 8192

/-- Helper: Go's truncated remainder of a negative integer by 2 is
nonpositive, so it never equals 1. -/
theorem tmod_two_ne_one_of_neg {v : Int} (hv : v < 0) : v.tmod 2 ≠ 1 := by
  cases v with
  | ofNat m => exact absurd hv (Int.not_lt.mpr (Int.ofNat_nonneg m))
  | negSucc m =>
    show -(Int.ofNat (Nat.succ m % 2)) ≠ 1
    have h3 : (0 : Int) ≤ Int.ofNat (Nat.succ m % 2) := Int.ofNat_nonneg _
    omega

/-- Helper: when the success guard is false, the dispatch selects the
action determined by the server type switch. -/
theorem handleConnection_special (cfg : Config) (count : Int)
    (hguard : ¬(cfg.ServerSuccessResponseOnFirst = true ∧ (wrap32 (count + 1)).tmod 2 = 1)) :
    (handleConnection cfg count).2 =
      (match cfg.ServerType with
        | ServerType.ServerTypeMultiResponse => ConnAction.multi
        | ServerType.ServerTypeRST => ConnAction.rst
        | ServerType.ServerTypeHTTP => ConnAction.panicUnknown) := by
  simp only [handleConnection, if_neg hguard]
  cases cfg.ServerType <;> rfl

/-- Configuration for the C1 counterexample: reset mode with
`ServerSuccessResponseOnFirst` set. -/
def hcCfg : Config :=
  { ServerSuccessResponseOnFirst := true, ServerType := ServerType.ServerTypeRST }

/-- Stored int32 counter value after 2^31 accepted connections: the
accept loop increments once per accepted connection and
`atomic.AddInt32` wraps, so the stored counter has reached -2^31. -/
def hcCount : Int := -2147483648

/-- C1 counterexample: the claim says every connection whose
post-increment counter value is odd is serviced with the normal 200
response, but at the wrapped stored counter -2^31 the post-increment
value is -2147483647 - odd - and Go's `%` yields -1 on it, so the
success guard fails and the connection is reset. -/
theorem handleConnection_wrapped_counter_counterexample :
    (handleConnection hcCfg hcCount).1 = -2147483647
    ∧ (handleConnection hcCfg hcCount).1 % 2 = 1
    ∧ hcCfg.ServerSuccessResponseOnFirst = true
    ∧ (handleConnection hcCfg hcCount).2 = ConnAction.rst
    ∧ ConnAction.rst ≠ ConnAction.normalHTTP := by
  decide

/-- C1 (amended): in the raw-TCP modes every accepted connection
increments the shared 32-bit wrapping counter (the dispatch returns
`wrap32 (count + 1)`); when `ServerSuccessResponseOnFirst` is set, a
connection whose post-increment value is odd and nonnegative is
serviced with the single normal HTTP 200 response path (which writes
exactly one response and then closes), while one whose post-increment
value is even - or negative after the counter wraps, where Go's `%`
yields a nonpositive remainder so the success guard fails even for odd
values - receives the mode's special behavior; in particular
connections #1 and #3 take the normal path while #2 and #4 take the
reset (resp. multi-response) path. -/
theorem handleConnection_succeedFirst_parity (cfg : Config) (count : Int) :
    (handleConnection cfg count).1 = wrap32 (count + 1)
    ∧ (cfg.ServerSuccessResponseOnFirst = true → 0 ≤ wrap32 (count + 1) →
        wrap32 (count + 1) % 2 = 1 →
        (handleConnection cfg count).2 = ConnAction.normalHTTP)
    ∧ (cfg.ServerSuccessResponseOnFirst = true →
        (wrap32 (count + 1) % 2 = 0 ∨ wrap32 (count + 1) < 0) →
        cfg.ServerType = ServerType.ServerTypeRST →
        (handleConnection cfg count).2 = ConnAction.rst)
    ∧ (cfg.ServerSuccessResponseOnFirst = true →
        (wrap32 (count + 1) % 2 = 0 ∨ wrap32 (count + 1) < 0) →
        cfg.ServerType = ServerType.ServerTypeMultiResponse →
        (handleConnection cfg count).2 = ConnAction.multi)
    ∧ (cfg.ServerSuccessResponseOnFirst = true →
        cfg.ServerType = ServerType.ServerTypeRST →
        runConnections cfg 4 0 =
          [ConnAction.normalHTTP, ConnAction.rst, ConnAction.normalHTTP, ConnAction.rst])
    ∧ (cfg.ServerSuccessResponseOnFirst = true →
        cfg.ServerType = ServerType.ServerTypeMultiResponse →
        runConnections cfg 4 0 =
          [ConnAction.normalHTTP, ConnAction.multi, ConnAction.normalHTTP, ConnAction.multi])
    ∧ countWrites (sendHTTPResponse true cfg) = 1
    ∧ (sendHTTPResponse true cfg).getLast? = some SrvEvent.closeNormal := by
  have hguard_even_neg : ∀ v : Int, v % 2 = 0 ∨ v < 0 → v.tmod 2 ≠ 1 := by
    intro v hv ht
    rcases hv with he | hn
    · rw [Int.tmod_eq_zero_of_dvd (Int.dvd_of_emod_eq_zero he)] at ht
      exact absurd ht (by decide)
    · exact tmod_two_ne_one_of_neg hn ht
  refine ⟨?_, ?_, ?_, ?_, ?_, ?_, ?_, ?_⟩
  · by_cases hc : cfg.ServerSuccessResponseOnFirst = true ∧ (wrap32 (count + 1)).tmod 2 = 1
    · simp [handleConnection, hc]
    · simp only [handleConnection, if_neg hc]
      cases cfg.ServerType <;> rfl
  · intro h1 h0 h2
    have ht : (wrap32 (count + 1)).tmod 2 = 1 := by
      rw [Int.tmod_eq_emod h0 (by decide)]
      exact h2
    simp [handleConnection, h1, ht]
  · intro h1 hev h3
    rw [handleConnection_special cfg count (fun hc => hguard_even_neg _ hev hc.2), h3]
  · intro h1 hev h3
    rw [handleConnection_special cfg count (fun hc => hguard_even_neg _ hev hc.2), h3]
  · intro h1 h2
    have n1 : handleConnection cfg 0 = (1, ConnAction.normalHTTP) := by
      simp [handleConnection, h1, (by decide : wrap32 (1 : Int) = 1),
        (by decide : Int.tmod 1 2 = 1)]
    have r2 : handleConnection cfg 1 = (2, ConnAction.rst) := by
      simp [handleConnection, h1, h2, (by decide : wrap32 (2 : Int) = 2),
        (by decide : Int.tmod 2 2 = 0)]
    have n3 : handleConnection cfg 2 = (3, ConnAction.normalHTTP) := by
      simp [handleConnection, h1, (by decide : wrap32 (3 : Int) = 3),
        (by decide : Int.tmod 3 2 = 1)]
    have r4 : handleConnection cfg 3 = (4, ConnAction.rst) := by
      simp [handleConnection, h1, h2, (by decide : wrap32 (4 : Int) = 4),
        (by decide : Int.tmod 4 2 = 0)]
    simp [runConnections, n1, r2, n3, r4]
  · intro h1 h2
    have n1 : handleConnection cfg 0 = (1, ConnAction.normalHTTP) := by
      simp [handleConnection, h1, (by decide : wrap32 (1 : Int) = 1),
        (by decide : Int.tmod 1 2 = 1)]
    have r2 : handleConnection cfg 1 = (2, ConnAction.multi) := by
      simp [handleConnection, h1, h2, (by decide : wrap32 (2 : Int) = 2),
        (by decide : Int.tmod 2 2 = 0)]
    have n3 : handleConnection cfg 2 = (3, ConnAction.normalHTTP) := by
      simp [handleConnection, h1, (by decide : wrap32 (3 : Int) = 3),
        (by decide : Int.tmod 3 2 = 1)]
    have r4 : handleConnection cfg 3 = (4, ConnAction.multi) := by
      simp [handleConnection, h1, h2, (by decide : wrap32 (4 : Int) = 4),
        (by decide : Int.tmod 4 2 = 0)]
    simp [runConnections, n1, r2, n3, r4]
  · by_cases hd : cfg.ServerSleepBeforeResponse = 0 <;>
      simp [sendHTTPResponse, hd, countWrites]
  · by_cases hd : cfg.ServerSleepBeforeResponse = 0 <;> simp [sendHTTPResponse, hd]

/-- Witness for C1: a reset-mode configuration with
`ServerSuccessResponseOnFirst` serves connections #1..#4 as
normal, reset, normal, reset. -/
theorem handleConnection_succeedFirst_parity_witness :
    runConnections
      { ServerSuccessResponseOnFirst := true, ServerType := ServerType.ServerTypeRST } 4 0 =
      [ConnAction.normalHTTP, ConnAction.rst, ConnAction.normalHTTP, ConnAction.rst] :=
  (handleConnection_succeedFirst_parity
    { ServerSuccessResponseOnFirst := true, ServerType := ServerType.ServerTypeRST }
    0).2.2.2.2.1 rfl rfl

/-- C2 counterexample: the claim says the sequential driver sleeps
`interRequestDelay` after each request except the last, but scenario 02
configures 1100ms and the driver sleeps only 2 whole seconds across its
two gaps (1s each), not 2200ms. -/
theorem startClient_scenario02_sleep_counterexample :
    ((simulations.get "02").getD {}).ReqInParallel = false
    ∧ ((simulations.get "02").getD {}).ClientWaitBeforeNextReq = 1100 * timeMillisecond
    ∧ ((simulations.get "02").getD {}).ReqCount = 3
    ∧ totalSleepNs (startClient ((simulations.get "02").getD {})) = 2 * timeSecond
    ∧ 2 * timeSecond ≠ 2 * (1100 * timeMillisecond) := by
  decide

/-- C2 (amended): for every scenario in the catalog, a sequential
scenario's driver issues the requests one after the other, sleeping the
configured inter-request delay truncated to whole seconds after each
request except the last, and a parallel scenario's driver dispatches all
requests with no inter-request delay and waits for all of them before
returning. -/
theorem startClient_execution_policy :
    ∀ cfg ∈ simulations,
      startClient cfg =
        if cfg.ReqInParallel = true then specParallelTrace cfg.ReqCount
        else specSequentialTrace cfg.ReqCount (truncSec cfg.ClientWaitBeforeNextReq) := by
  decide

/-- Witness for C2: scenario 09's parallel driver trace. -/
theorem startClient_execution_policy_witness :
    startClient ((simulations.get "09").getD {}) =
      (if ((simulations.get "09").getD {}).ReqInParallel = true
        then specParallelTrace ((simulations.get "09").getD {}).ReqCount
        else specSequentialTrace ((simulations.get "09").getD {}).ReqCount
          (truncSec ((simulations.get "09").getD {}).ClientWaitBeforeNextReq)) :=
  startClient_execution_policy _ (by decide)

/-- C3 counterexample: the claim says a listener bind failure exits with
code 1 for every server mode including NORMAL_HTTP, but `startHTTPServer`
only logs the error from ListenAndServe and returns without exiting. -/
theorem startHTTPServer_bind_failure_counterexample :
    ((simulations.get "01").getD {}).ServerType = ServerType.ServerTypeHTTP
    ∧ (startHTTPServer ((simulations.get "01").getD {})
        (some "listen tcp 127.0.0.1:8080: bind: address already in use")).exit = none
    ∧ (none : Option Nat) ≠ some 1 := by
  decide

/-- C3 (amended): the process exits 0 on normal or interrupted
completion; it exits 1 on unknown scenario ID, on a TLS request for a
scenario whose server mode cannot serve TLS, and on listener bind
failure in the raw-TCP server modes; in NORMAL_HTTP mode a bind failure
is only logged and no exit call is made. -/
theorem exit_code_policy :
    (∀ argsCfg : Config, Simulations.get simulations argsCfg.ID = none →
      loadConfiguration argsCfg = Except.error 1)
    ∧ (∀ argsCfg cfg0 : Config, Simulations.get simulations argsCfg.ID = some cfg0 →
        cfg0.ServerType ≠ ServerType.ServerTypeHTTP → argsCfg.UseTLS = true →
        loadConfiguration argsCfg = Except.error 1)
    ∧ (∀ (cfg : Config) (e : String), (startTPCServer cfg (some e)).exit = some 1)
    ∧ (∀ (cfg : Config) (e : String), (startHTTPServer cfg (some e)).exit = none)
    ∧ (∀ b : Bool, (runSimulationOutcome b).exit = none) := by
  refine ⟨?_, ?_, ?_, ?_, ?_⟩
  · intro a h
    simp [loadConfiguration, loadConfigurationSt, h]
  · intro a c h h2 h3
    simp [loadConfiguration, loadConfigurationSt, h, h2, h3]
  · intro c e; rfl
  · intro c e; rfl
  · intro b; rfl

/-- Witness for C3: an unknown scenario ID exits 1, and a raw-TCP bind
failure exits 1. -/
theorem exit_code_policy_witness :
    loadConfiguration { ID := "99" } = Except.error 1
    ∧ (startTPCServer ({} : Config) (some "boom")).exit = some 1 :=
  ⟨exit_code_policy.1 { ID := "99" } (by decide),
   exit_code_policy.2.2.1 {} "boom"⟩

/-- C4: the NORMAL_HTTP handler sleeps `ServerSleepOnSecondDuration`
exactly when that mode is enabled and the `req` parameter is "2", then
`ServerSleepBeforeResponse` exactly when nonzero, in that order; GET is
answered 200 with the query-number body, POST echoes the received body
with 200, and every other method (including HEAD and DELETE, which the
CLI accepts) is answered 405. -/
theorem newHandler_behavior (cfg : Config) (r : HttpRequest) :
    ((newHandler cfg r).sleepsNs =
        (if cfg.ServerSleepOnSecond = true ∧ r.reqParam = "2"
          then [cfg.ServerSleepOnSecondDuration] else [])
        ++ (if cfg.ServerSleepBeforeResponse ≠ 0 then [cfg.ServerSleepBeforeResponse] else []))
    ∧ (r.method = "GET" → (newHandler cfg r).status = 200
        ∧ (newHandler cfg r).respBody = "GET request handled with query number: " ++ r.reqParam)
    ∧ (r.method = "POST" → r.bodyReadErr = false → (newHandler cfg r).status = 200
        ∧ (newHandler cfg r).respBody = "POST request handled, Data received: " ++ r.body ++ "\n")
    ∧ (r.method ≠ "GET" → r.method ≠ "POST" → (newHandler cfg r).status = 405)
    ∧ (newHandler cfg { method := "HEAD", reqParam := "1", body := "", bodyReadErr := false }).status = 405
    ∧ (newHandler cfg { method := "DELETE", reqParam := "1", body := "", bodyReadErr := false }).status = 405 := by
  refine ⟨?_, ?_, ?_, ?_, ?_, ?_⟩
  · unfold newHandler
    repeat' split
    all_goals rfl
  · intro h
    simp [newHandler, h]
  · intro h h2
    simp [newHandler, h, h2]
  · intro h h2
    simp [newHandler, h, h2]
  · simp [newHandler]
  · simp [newHandler]

/-- Witness for C4: a GET request numbered 1 on the default
configuration is answered 200 with the expected body. -/
theorem newHandler_behavior_witness :
    (newHandler ({} : Config) { method := "GET", reqParam := "1", body := "", bodyReadErr := false }).status = 200
    ∧ (newHandler ({} : Config) { method := "GET", reqParam := "1", body := "", bodyReadErr := false }).respBody
        = "GET request handled with query number: " ++ "1" :=
  (newHandler_behavior {} { method := "GET", reqParam := "1", body := "", bodyReadErr := false }).2.1 rfl

/-- C5: the multi-response path performs, in order, the fixed 100ms
settle sleep, a single write of the literal HTTP/1.1 200 response with
the 2-byte body, a sleep of `ServerMultiCloseConAfter`, and a normal
close; exactly one response is written and the elapsed time at the close
is at least `ServerMultiCloseConAfter` past the elapsed time at which
the write completed. -/
theorem sendMulti_single_response_delayed_close (cfg : Config) :
    sendMulti true cfg =
      [SrvEvent.sleepNs (100 * timeMillisecond), SrvEvent.write okResponse,
        SrvEvent.sleepNs cfg.ServerMultiCloseConAfter, SrvEvent.closeNormal]
    ∧ countWrites (sendMulti true cfg) = 1
    ∧ elapsedBefore (sendMulti true cfg) 3 ≥
        elapsedBefore (sendMulti true cfg) 2 + cfg.ServerMultiCloseConAfter := by
  refine ⟨rfl, rfl, ?_⟩
  simp [sendMulti, elapsedBefore, srvSleepNs, timeMillisecond]

/-- C6: the reset path never panics, always closes the connection, and
never writes HTTP bytes; when obtaining the file descriptor or setting
the linger option fails (or the connection is not TCP) it degrades to an
ordinary close with a logged message and the zero-linger option not set;
when everything succeeds the connection is closed with the zero-linger
option enabled. -/
theorem sendRST_degrade_and_reset (isTCP fileErr sockoptErr : Bool) :
    (sendRST isTCP fileErr sockoptErr).panicked = false
    ∧ (sendRST isTCP fileErr sockoptErr).closedConn = true
    ∧ (sendRST isTCP fileErr sockoptErr).httpBytesWritten = []
    ∧ (isTCP = false ∨ fileErr = true ∨ sockoptErr = true →
        (sendRST isTCP fileErr sockoptErr).lingerZeroSet = false
        ∧ (sendRST isTCP fileErr sockoptErr).logs ≠ [])
    ∧ (isTCP = true → fileErr = false → sockoptErr = false →
        (sendRST isTCP fileErr sockoptErr).lingerZeroSet = true) := by
  cases isTCP <;> cases fileErr <;> cases sockoptErr <;> decide

/-- Witness for C6: a failure to obtain the file descriptor degrades to
an ordinary close (no zero-linger) with a logged message. -/
theorem sendRST_degrade_and_reset_witness :
    (sendRST true true false).lingerZeroSet = false
    ∧ (sendRST true true false).logs ≠ [] :=
  (sendRST_degrade_and_reset true true false).2.2.2.1 (Or.inr (Or.inl rfl))

/-- C7: when the per-connection dispatch is reached with the one server
type outside the two recognized raw-TCP cases of its switch and the
odd-counter success path does not apply - that is, the program's own
guard `succeedFirstConnection && currentConnection%2 == 1` (Go's
truncated `%` on the wrapped int32 post-increment value) is false,
which includes every wrapped-negative counter state - it panics instead
of silently defaulting. -/
theorem handleConnection_unknown_mode_panics (cfg : Config) (count : Int)
    (hmode : cfg.ServerType = ServerType.ServerTypeHTTP)
    (hguard : ¬(cfg.ServerSuccessResponseOnFirst = true
      ∧ (wrap32 (count + 1)).tmod 2 = 1)) :
    (handleConnection cfg count).2 = ConnAction.panicUnknown := by
  rw [handleConnection_special cfg count hguard, hmode]

/-- Witness for C7: a configuration whose server type is the HTTP one
but whose dispatch is reached panics on the first connection. -/
theorem handleConnection_unknown_mode_panics_witness :
    (handleConnection { ServerType := ServerType.ServerTypeHTTP } 0).2
      = ConnAction.panicUnknown :=
  handleConnection_unknown_mode_panics _ 0 rfl (by decide)

/-- C8: catalog lookup is total and deterministic: every ID present in
the catalog resolves to its own entry, and an ID carried by no entry
yields not-found. -/
theorem simulations_get_total :
    (∀ cfg ∈ simulations, Simulations.get simulations cfg.ID = some cfg)
    ∧ (∀ id : String, (∀ cfg ∈ simulations, cfg.ID ≠ id) →
        Simulations.get simulations id = none) := by
  constructor
  · decide
  · exact fun id h => Simulations.get_eq_none simulations id h

/-- Witness for C8: the unknown ID "99" is not found. -/
theorem simulations_get_total_witness :
    Simulations.get simulations "99" = none :=
  simulations_get_total.2 "99" (by decide)

/-- C9: the driver's total sleep is the number of request gaps times the
configured delay truncated to whole seconds; a 1100ms delay is slept as
exactly one second, and a delay strictly below one second produces no
sleep event at all. -/
theorem interRequestDelay_truncation (cfg : Config) :
    totalSleepNs (startClient cfg)
      = (cfg.ReqCount - 1) * (truncSec cfg.ClientWaitBeforeNextReq * timeSecond)
    ∧ totalSleepNs (wait (truncSec (1100 * timeMillisecond))) = 1 * timeSecond
    ∧ (cfg.ClientWaitBeforeNextReq < 1 * timeSecond →
        ∀ e ∈ startClient cfg, isSleepEvent e = false) := by
  refine ⟨?_, by decide, ?_⟩
  · unfold startClient
    rw [totalSleepNs_append, clientLoop_totalSleep cfg cfg.ReqCount 1 (by omega)]
    simp [totalSleepNs, sleepNsOf]
  · intro hlt e he
    have ht : truncSec cfg.ClientWaitBeforeNextReq = 0 :=
      Nat.div_eq_of_lt (by simpa using hlt)
    unfold startClient at he
    rw [List.mem_append] at he
    rcases he with he | he
    · exact clientLoop_no_sleep cfg cfg.ReqCount 1 ht e he
    · simp at he
      simp [he, isSleepEvent]

/-- Witness for C9: scenario 02's driver sleeps 2 whole seconds in
total, a 1100ms gap is slept as one second, and the final wait event of
a zero-delay run is not a sleep. -/
theorem interRequestDelay_truncation_witness :
    totalSleepNs (startClient ((simulations.get "02").getD {}))
      = (((simulations.get "02").getD {}).ReqCount - 1) *
        (truncSec ((simulations.get "02").getD {}).ClientWaitBeforeNextReq * timeSecond)
    ∧ totalSleepNs (wait (truncSec (1100 * timeMillisecond))) = 1 * timeSecond
    ∧ isSleepEvent Event.waitAll = false :=
  ⟨(interRequestDelay_truncation ((simulations.get "02").getD {})).1,
   (interRequestDelay_truncation {}).2.1,
   (interRequestDelay_truncation ({} : Config)).2.2 (by decide) Event.waitAll (by decide)⟩

/-- C10: the loader never changes the catalog it reads (the Go lookup
hands back a pointer to a range-loop copy, so the loader's writes land
on the copy); concretely, loading scenario 01 with a POST method
override yields a configuration with the overridden method and filled-in
addresses, while a second lookup of "01" still returns the original
entry with method GET and empty address and URL. -/
theorem lookup_returns_copy_frame :
    (∀ (argsCfg : Config) (cat : Simulations), (loadConfigurationSt argsCfg cat).2 = cat)
    ∧ ((loadConfigurationSt args01 simulations).1.toOption.map
        Config.ClientRequestMethod = some "POST")
    ∧ ((loadConfigurationSt args01 simulations).1.toOption.map
        Config.ServerAddress = some "127.0.0.1:8080")
    ∧ ((loadConfigurationSt args01 simulations).1.toOption.map
        Config.ClientRequestURL = some "http://127.0.0.1:8080")
    ∧ ((Simulations.get (loadConfigurationSt args01 simulations).2 "01").map
        Config.ClientRequestMethod = some "GET")
    ∧ ((Simulations.get (loadConfigurationSt args01 simulations).2 "01").map
        Config.ServerAddress = some "")
    ∧ ((Simulations.get (loadConfigurationSt args01 simulations).2 "01").map
        Config.ClientRequestURL = some "") := by
  refine ⟨?_, by decide, by decide, by decide, by decide, by decide, by decide⟩
  intro a cat
  unfold loadConfigurationSt
  cases Simulations.get cat a.ID with
  | none => rfl
  | some c =>
    by_cases hc : c.ServerType ≠ ServerType.ServerTypeHTTP ∧ a.UseTLS = true <;> simp [hc]

end Netsim
